import Mathlib

/-!
# Verification of the on-demand syscall tracer (`src/tracer.py`)

Shallow embedding of the tracer's core: configuration reads, the CloudWatch
log-delivery layer with its sequencing token, the trace-session loop of
`start_tracing`, and the Controller poll loop of `main`.

External collaborators (SSM parameter store, CloudWatch Logs, the spawned
`strace` subprocess) are modelled as oracles supplied to each function: every
fallible collaborator call consumes an `Except`-valued response describing
whether the call succeeded and what it returned.  Timestamps and local
printing are side effects with no bearing on the verified properties and are
abstracted away.
-/

namespace Tracer

/-- Python truthiness of an optional string (`None` and `""` are falsy). -/
def truthy : Option String → Bool
  | none => false
  | some s => !(s == "")

/-- Python `str.lower()` restricted to ASCII (all stored values of interest
are ASCII). -/
def pyLower (s : String) : String := String.mk (s.data.map Char.toLower)

/-- Drop leading whitespace characters from a character list. -/
def dropWs : List Char → List Char
  | [] => []
  | c :: cs => if c.isWhitespace then dropWs cs else c :: cs

/-- Python `str.strip()`: remove leading and trailing whitespace. -/
def pyStrip (s : String) : String :=
  String.mk ((dropWs (dropWs s.data).reverse).reverse)

/-- Worker for `pySplit`: `cur` holds the characters of the word being read,
in reverse order. -/
def splitWsGo : List Char → List Char → List String
  | [], cur => if cur.isEmpty then [] else [String.mk cur.reverse]
  | c :: cs, cur =>
    if c.isWhitespace then
      if cur.isEmpty then splitWsGo cs []
      else String.mk cur.reverse :: splitWsGo cs []
    else splitWsGo cs (c :: cur)

/-- Python `str.split()` with no argument: split on runs of whitespace,
dropping empty pieces. -/
def pySplit (s : String) : List String := splitWsGo s.data []

/-- The fixed diagnostic flags of the `strace` invocation in `start_tracing`:
`['strace', '-f', '-tt', '-T', '-s', '256']`. -/
def straceFlags : List String := ["strace", "-f", "-tt", "-T", "-s", "256"]

/-- The argv passed to `subprocess.Popen` in `start_tracing`:
the fixed flags followed by `command.split()`. -/
def straceArgv (command : String) : List String := straceFlags ++ pySplit command

/-- `get_ssm_parameter`: a store read either returns a value or raises
(parameter missing or store unreachable); any exception is caught and turned
into `None`. -/
def get_ssm_parameter (resp : Except Unit String) : Option String :=
  match resp with
  | .ok v => some v
  | .error _ => none

/-- `is_tracing_enabled`: `value and value.lower() == 'true'` as a predicate
(the Python expression is truthy exactly when the value is present, non-empty
and lowercases to `"true"`). -/
def is_tracing_enabled (resp : Except Unit String) : Bool :=
  match get_ssm_parameter resp with
  | some v => !(v == "") && (pyLower v == "true")
  | none => false

/-- `get_target_command`: `get_ssm_parameter(SSM_COMMAND) or "ls -la"`
(the default also applies to a present-but-empty value, which is falsy). -/
def get_target_command (resp : Except Unit String) : String :=
  match get_ssm_parameter resp with
  | some v => if v == "" then "ls -la" else v
  | none => "ls -la"

/-! ## Log delivery (`send_to_cloudwatch`, `create_log_stream`) -/

/-- Outcome of one `put_log_events` call, as seen by the session: `.error`
is a raised exception (DeliveryError), `.ok t` is success with
`nextSequenceToken = t` read back via `response.get` (possibly absent). -/
abbrev SinkResp := Except Unit (Option String)

/-- The token attached to a `put_log_events` request: the code adds the
`sequenceToken` field only under `if sequence_token:`, i.e. when the stored
token is truthy. -/
def attachTok (tok : Option String) : Option String :=
  if truthy tok then tok else none

/-- The stored `sequence_token` after one `send_to_cloudwatch` call:
replaced by the returned next-token on success, left unchanged when the
call raised. -/
def tokStep (tok : Option String) (r : SinkResp) : Option String :=
  match r with
  | .ok next => next
  | .error _ => tok

/-- `true` iff the sink call succeeded (the event was accepted). -/
def respOk (r : SinkResp) : Bool :=
  match r with
  | .ok _ => true
  | .error _ => false

/-- Result of one `send_to_cloudwatch` call: the new global token, the token
that was attached to the request, and whether the event was delivered. -/
structure SendResult where
  token : Option String
  supplied : Option String
  delivered : Bool
deriving DecidableEq

/-- `send_to_cloudwatch`: build the request with the current token attached
if truthy; on success store the returned next-token; on any exception print
locally and leave the token unchanged (the event is dropped, no retry). -/
def send_to_cloudwatch (tok : Option String) (resp : SinkResp) : SendResult :=
  { token := tokStep tok resp, supplied := attachTok tok, delivered := respOk resp }

/-- The module globals `sequence_token` and `current_log_stream`
(they persist across sessions). -/
structure StreamState where
  sequence_token : Option String
  current_log_stream : Option String
deriving DecidableEq

/-- `create_log_stream`: the stream name `trace-<timestamp>` is assigned
before the `try` block, so it is set unconditionally; `sequence_token = None`
sits inside the `try` after the `create_log_stream` API call, so the token is
reset only when that call succeeds (`except: pass` otherwise). -/
def create_log_stream (ts : String) (apiOk : Bool) (g : StreamState) : StreamState :=
  { sequence_token := if apiOk then none else g.sequence_token,
    current_log_stream := some ("trace-" ++ ts) }

/-! ## Trace session (`start_tracing`, `stop_tracing`) -/

/-- Payload shape of a log event sent by the session (timestamps
abstracted). -/
inductive Msg where
  | started (command : String)
  | syscall (line : String)
  | completed (total : Nat)
deriving DecidableEq

/-- Record of one `put_log_events` call made during a session: the message,
the token attached to the request, the sink's response, and whether the
event was delivered. -/
structure AppendCall where
  msg : Msg
  supplied : Option String
  resp : SinkResp
  delivered : Bool

/-- What the spawned subprocess's stderr yields: the lines produced by
iterating over it, and whether the iterator raises (a capture fault) instead
of reporting EOF after the last line. -/
structure CaptureStream where
  lines : List String
  faultAtEnd : Bool

/-- Oracle for one session: the timestamp used for the stream name, whether
the `create_log_stream` API call succeeds, the spawn outcome (`.error` =
`Popen` raised), the sink's response to the session's k-th append call, and
the value of `is_tracing_enabled()` at the i-th loop check. -/
structure SessionEnv where
  streamTs : String
  streamCreateOk : Bool
  spawn : Except Unit CaptureStream
  sinkResp : Nat → SinkResp
  enabledAt : Nat → Bool

/-- Result of the `for line in strace_process.stderr` loop from a given
point on: the append calls made, the final token, the final `line_count`,
the next append-call index, and whether the loop exited via the
cancellation `break`. -/
structure LoopOut where
  appends : List AppendCall
  tok : Option String
  count : Nat
  callIdx : Nat
  broke : Bool

/-- The `RUNNING` loop of `start_tracing`: for each line, if its stripped
form is non-empty, send a `syscall` event and increment `line_count`; then
check `is_tracing_enabled()` and on a falsy result call `stop_tracing()`
(terminate the subprocess, clear the handle) and `break`. -/
def captureLoop (env : SessionEnv) :
    List String → Nat → Option String → Nat → Nat → LoopOut
  | [], _, tok, callIdx, count =>
    { appends := [], tok := tok, count := count, callIdx := callIdx, broke := false }
  | l :: rest, i, tok, callIdx, count =>
    if pyStrip l == "" then
      if env.enabledAt i then captureLoop env rest (i + 1) tok callIdx count
      else { appends := [], tok := tok, count := count, callIdx := callIdx, broke := true }
    else
      let r := send_to_cloudwatch tok (env.sinkResp callIdx)
      let a : AppendCall :=
        { msg := .syscall (pyStrip l), supplied := r.supplied,
          resp := env.sinkResp callIdx, delivered := r.delivered }
      if env.enabledAt i then
        let out := captureLoop env rest (i + 1) r.token (callIdx + 1) (count + 1)
        { appends := a :: out.appends, tok := out.tok, count := out.count,
          callIdx := out.callIdx, broke := out.broke }
      else
        { appends := [a], tok := r.token, count := count + 1,
          callIdx := callIdx + 1, broke := true }

/-- Result of one whole `start_tracing` call: the final globals, all append
calls made (in order), the final `line_count`, whether `terminate()` was
sent, whether `wait()` ran to completion, and whether the generic
`except Exception` branch ran. -/
structure SessionResult where
  g : StreamState
  appends : List AppendCall
  lineCount : Nat
  terminated : Bool
  waited : Bool
  errored : Bool

/-- `start_tracing`: create the log stream and append `trace_started`
(both happen before the spawn is attempted); then spawn.  On `Popen`
raising, the `except` branch runs and control returns — but the stream was
already created and `trace_started` already sent.  Otherwise run the
capture loop.  If the loop exited via the cancellation `break`,
`stop_tracing()` has already set `strace_process = None`, so the subsequent
`strace_process.wait()` raises `AttributeError`, which the generic `except`
catches: no `wait` and no `trace_completed` event.  If the stderr iterator
raised (capture fault) the same `except` branch runs.  Only on clean EOF do
`wait()` and the `trace_completed` append execute. -/
def start_tracing (command : String) (g0 : StreamState) (env : SessionEnv) :
    SessionResult :=
  let g1 := create_log_stream env.streamTs env.streamCreateOk g0
  let r0 := send_to_cloudwatch g1.sequence_token (env.sinkResp 0)
  let a0 : List AppendCall :=
    [{ msg := .started command, supplied := r0.supplied,
       resp := env.sinkResp 0, delivered := r0.delivered }]
  match env.spawn with
  | .error _ =>
    { g := { sequence_token := r0.token,
             current_log_stream := g1.current_log_stream },
      appends := a0, lineCount := 0,
      terminated := false, waited := false, errored := true }
  | .ok cap =>
    let out := captureLoop env cap.lines 0 r0.token 1 0
    if out.broke then
      { g := { sequence_token := out.tok,
               current_log_stream := g1.current_log_stream },
        appends := a0 ++ out.appends, lineCount := out.count,
        terminated := true, waited := false, errored := true }
    else if cap.faultAtEnd then
      { g := { sequence_token := out.tok,
               current_log_stream := g1.current_log_stream },
        appends := a0 ++ out.appends, lineCount := out.count,
        terminated := false, waited := false, errored := true }
    else
      let rc := send_to_cloudwatch out.tok (env.sinkResp out.callIdx)
      { g := { sequence_token := rc.token,
               current_log_stream := g1.current_log_stream },
        appends := a0 ++ out.appends ++
          [{ msg := .completed out.count, supplied := rc.supplied,
             resp := env.sinkResp out.callIdx, delivered := rc.delivered }],
        lineCount := out.count,
        terminated := false, waited := true, errored := false }

/-- `stop_tracing`: if the handle is set, `terminate()` the subprocess and
clear the handle.  Modelled here on the handle alone: the returned pair is
(terminate was sent, new handle value).  It is this clearing of the handle
that makes the later `strace_process.wait()` in `start_tracing` raise. -/
def stop_tracing (handle : Option Unit) : Bool × Option Unit :=
  match handle with
  | some _ => (true, none)
  | none => (false, none)

/-! ## Controller poll loop (`main`) -/

/-- Oracle for one poll iteration: the two SSM reads, the session oracle
(used only on a rising edge), and the outcome of the auto-disable
`put_parameter` write (`.error` = the boto call raised). -/
structure PollEnv where
  toggleRead : Except Unit String
  commandRead : Except Unit String
  session : SessionEnv
  disableWrite : Except Unit Unit

/-- Controller state carried between iterations: `last_status` plus the
module globals that persist across sessions. -/
structure CtrlState where
  lastStatus : Bool
  g : StreamState

/-- Observable record of one completed poll iteration. -/
structure IterLog where
  enabled : Bool
  ranSession : Bool
  sessionResult : Option SessionResult
  wroteDisable : Bool

/-- One iteration of the `while True` loop in `main`: read the toggle,
detect a rising edge, on an edge resolve the command and run
`start_tracing`, then call `put_parameter` to auto-disable.  That write is
the only collaborator call of the loop body not wrapped in a `try`:
if it raises, the exception propagates out of the loop (`.error`). -/
def pollIter (st : CtrlState) (env : PollEnv) :
    Except Unit (CtrlState × IterLog) :=
  let enabled := is_tracing_enabled env.toggleRead
  if enabled && !st.lastStatus then
    let res := start_tracing (get_target_command env.commandRead) st.g env.session
    match env.disableWrite with
    | .error e => .error e
    | .ok _ =>
      .ok ({ lastStatus := enabled, g := res.g },
           { enabled := enabled, ranSession := true,
             sessionResult := some res, wroteDisable := true })
  else
    .ok ({ lastStatus := enabled, g := st.g },
         { enabled := enabled, ranSession := false,
           sessionResult := none, wroteDisable := false })

/-- Run the poll loop over a finite prefix of iteration oracles.  Returns
the logs of the completed iterations and whether the loop crashed (an
uncaught exception escaped the loop body, killing the process). -/
def runPoll (st : CtrlState) : List PollEnv → List IterLog × Bool
  | [] => ([], false)
  | e :: rest =>
    match pollIter st e with
    | .error _ => ([], true)
    | .ok (st', l) =>
      let out := runPoll st' rest
      (l :: out.1, out.2)

/-! ## Shell-word splitting (spec-side definition, for claim C8) -/

/-- Modelled from the spec: "`command` is split into an executable path and
positional arguments using shell-word-splitting semantics" — the source
instead uses `command.split()`.  Minimal POSIX-style word splitting: words
are separated by unquoted whitespace, and a quoted substring (double or
single quotes) keeps its spaces and joins the surrounding word.  `q` is the
active quote character, `cur` the reversed characters of the word being
read (`none` when not inside a word). -/
def shellGo : List Char → Option Char → Option (List Char) → List String
  | [], _, cur =>
    match cur with
    | some w => [String.mk w.reverse]
    | none => []
  | c :: cs, some q, cur =>
    if c == q then shellGo cs none (some (cur.getD []))
    else shellGo cs (some q) (some (c :: cur.getD []))
  | c :: cs, none, cur =>
    if c.isWhitespace then
      match cur with
      | some w => String.mk w.reverse :: shellGo cs none none
      | none => shellGo cs none none
    else if c == '"' || c == Char.ofNat 39 then
      shellGo cs (some c) (some (cur.getD []))
    else shellGo cs none (some (c :: cur.getD []))

/-- Modelled from the spec: shell-word splitting of a command string. -/
def shellWordSplit (s : String) : List String := shellGo s.data none none

/-! ## Derived predicates used by the theorems -/

/-- A sink response is well-formed when a returned next-token is never the
empty string (CloudWatch sequence tokens are opaque non-empty strings). -/
def respWellFormed : SinkResp → Bool
  | .ok (some t) => !(t == "")
  | _ => true

/-- Delivery-chain predicate: starting from stored token `tok`, each append
call attached exactly `attachTok` of the current stored token, and the
stored token then evolves by `tokStep` with that call's response. -/
def chainFrom : Option String → List AppendCall → Prop
  | _, [] => True
  | tok, a :: rest => a.supplied = attachTok tok ∧ chainFrom (tokStep tok a.resp) rest

/-- The stored token after a list of append calls, starting from `tok`. -/
def tokAfter (tok : Option String) (l : List AppendCall) : Option String :=
  l.foldl (fun t a => tokStep t a.resp) tok

/-- The append-call record produced for one non-empty line: message is the
stripped line, the current token is attached, and the sink's response to
call `callIdx` decides delivery. -/
def appendRec (l : String) (tok : Option String) (callIdx : Nat)
    (env : SessionEnv) : AppendCall :=
  { msg := .syscall (pyStrip l), supplied := attachTok tok,
    resp := env.sinkResp callIdx, delivered := respOk (env.sinkResp callIdx) }

/-- The token attached to the first append call of a session result. -/
def firstSupplied (r : SessionResult) : Option (Option String) :=
  (r.appends.map AppendCall.supplied).head?

/-- The stored token right after the `trace_started` append of a session. -/
def tokAfterStart (g : StreamState) (env : SessionEnv) : Option String :=
  tokStep (create_log_stream env.streamTs env.streamCreateOk g).sequence_token
    (env.sinkResp 0)

/-- The capture-loop run of a session whose spawn succeeded. -/
def sessionLoop (g : StreamState) (env : SessionEnv) (cap : CaptureStream) : LoopOut :=
  captureLoop env cap.lines 0 (tokAfterStart g env) 1 0

/-- The `trace_started` append record of a session. -/
def startedRec (cmd : String) (g : StreamState) (env : SessionEnv) : AppendCall :=
  { msg := .started cmd,
    supplied :=
      attachTok (create_log_stream env.streamTs env.streamCreateOk g).sequence_token,
    resp := env.sinkResp 0,
    delivered := respOk (env.sinkResp 0) }

/-- The `trace_completed` append record of a session (EOF path only). -/
def completedRec (g : StreamState) (env : SessionEnv) (cap : CaptureStream) : AppendCall :=
  { msg := .completed (sessionLoop g env cap).count,
    supplied := attachTok (sessionLoop g env cap).tok,
    resp := env.sinkResp (sessionLoop g env cap).callIdx,
    delivered := respOk (env.sinkResp (sessionLoop g env cap).callIdx) }

/-- Whether a poll iteration's auto-disable write would succeed. -/
def writeOk (e : PollEnv) : Bool :=
  match e.disableWrite with
  | .ok _ => true
  | .error _ => false

/-! ## Concrete scenarios for counterexamples and witnesses -/

/-- Session whose toggle reads back falsy after the first line: the
cancellation predicate fires while a second line remains. -/
def envCancel : SessionEnv :=
  { streamTs := "ts1", streamCreateOk := true,
    spawn := .ok { lines := ["openat(3)", "read(3)"], faultAtEnd := false },
    sinkResp := fun _ => .ok (some "n"), enabledAt := fun _ => false }

/-- Session whose `Popen` call raises (strace binary missing). -/
def envSpawnFail : SessionEnv :=
  { streamTs := "ts2", streamCreateOk := true, spawn := .error (),
    sinkResp := fun _ => .ok (some "n"), enabledAt := fun _ => true }

/-- A benign one-line session whose deliveries all succeed with token
`"T1"`. -/
def sessA : SessionEnv :=
  { streamTs := "a", streamCreateOk := true,
    spawn := .ok { lines := ["x"], faultAtEnd := false },
    sinkResp := fun _ => .ok (some "T1"), enabledAt := fun _ => true }

/-- A session whose `create_log_stream` API call fails. -/
def sessB : SessionEnv :=
  { streamTs := "b", streamCreateOk := false,
    spawn := .ok { lines := [], faultAtEnd := false },
    sinkResp := fun _ => .ok (some "T2"), enabledAt := fun _ => true }

/-- Poll iteration with an edge, running `sessA`, write succeeding. -/
def pollA : PollEnv :=
  { toggleRead := .ok "true", commandRead := .ok "ls", session := sessA,
    disableWrite := .ok () }

/-- Poll iteration with the toggle off. -/
def pollOff : PollEnv :=
  { toggleRead := .ok "false", commandRead := .ok "ls", session := sessA,
    disableWrite := .ok () }

/-- Poll iteration with an edge, running `sessB`. -/
def pollB : PollEnv :=
  { toggleRead := .ok "true", commandRead := .ok "ls", session := sessB,
    disableWrite := .ok () }

/-- Poll iteration with an edge whose auto-disable write raises. -/
def pollWriteFail : PollEnv :=
  { toggleRead := .ok "true", commandRead := .ok "ls", session := sessA,
    disableWrite := .error () }

/-- Poll iteration whose two SSM reads both fail. -/
def pollReadFail : PollEnv :=
  { toggleRead := .error (), commandRead := .error (), session := sessA,
    disableWrite := .ok () }

/-- Session combining a stream-creation failure, all deliveries failing,
and a capture fault at end of stream. -/
def envAllFail : SessionEnv :=
  { streamTs := "f", streamCreateOk := false,
    spawn := .ok { lines := ["x"], faultAtEnd := true },
    sinkResp := fun _ => .error (), enabledAt := fun _ => true }

/-- Poll iteration with an edge running `envAllFail`; command read fails
too, but the auto-disable write succeeds. -/
def pollAllFail : PollEnv :=
  { toggleRead := .ok "true", commandRead := .error (), session := envAllFail,
    disableWrite := .ok () }

/-- Poll iteration with an edge whose session spawn fails; the disable
write succeeds. -/
def pollSpawnErr : PollEnv :=
  { toggleRead := .ok "true", commandRead := .ok "ls", session := envSpawnFail,
    disableWrite := .ok () }

/-- Initial controller state: `last_status = False`, globals unset. -/
def ctrl0 : CtrlState :=
  { lastStatus := false, g := { sequence_token := none, current_log_stream := none } }

/-- Session for the C6 witness: append call 1 suffers a DeliveryError,
calls 0, 2, 3 succeed with distinct tokens. -/
def envC6 : SessionEnv :=
  { streamTs := "w6", streamCreateOk := true,
    spawn := .ok { lines := ["a", "b"], faultAtEnd := false },
    sinkResp := fun k =>
      match k with
      | 0 => .ok (some "n0")
      | 1 => .error ()
      | 2 => .ok (some "n2")
      | _ => .ok (some "n3"),
    enabledAt := fun _ => true }

/-- The first three append calls `envC6` produces (computed; used to state
the C6 witness). -/
def c6a : AppendCall :=
  { msg := .started "x", supplied := none, resp := .ok (some "n0"), delivered := true }

/-- Second append call of the `envC6` session. -/
def c6b : AppendCall :=
  { msg := .syscall "a", supplied := some "n0", resp := .error (), delivered := false }

/-- Third append call of the `envC6` session. -/
def c6c : AppendCall :=
  { msg := .syscall "b", supplied := some "n0", resp := .ok (some "n2"), delivered := true }

/-- Session for the C7 witness: three lines, one of them whitespace-only,
with the delivery of the first syscall line failing. -/
def envC7 : SessionEnv :=
  { streamTs := "w7", streamCreateOk := true,
    spawn := .ok { lines := ["la", " ", "lb"], faultAtEnd := false },
    sinkResp := fun k => match k with | 1 => .error () | _ => .ok (some "m"),
    enabledAt := fun _ => true }

/-! ## Helper lemmas -/

theorem attachTok_of_wf (next : Option String)
    (h : respWellFormed (Except.ok next) = true) : attachTok next = next := by
  cases next with
  | none => rfl
  | some s =>
    simp only [respWellFormed] at h
    simp [attachTok, truthy, h]

theorem pollIter_no_edge (st : CtrlState) (e : PollEnv)
    (hb : (is_tracing_enabled e.toggleRead && !st.lastStatus) = false) :
    pollIter st e = Except.ok
      ({ lastStatus := is_tracing_enabled e.toggleRead, g := st.g },
       { enabled := is_tracing_enabled e.toggleRead, ranSession := false,
         sessionResult := none, wroteDisable := false }) := by
  simp [pollIter, hb]

theorem pollIter_edge_ok (st : CtrlState) (e : PollEnv) (u : Unit)
    (hb : (is_tracing_enabled e.toggleRead && !st.lastStatus) = true)
    (hw : e.disableWrite = Except.ok u) :
    pollIter st e = Except.ok
      ({ lastStatus := is_tracing_enabled e.toggleRead,
         g := (start_tracing (get_target_command e.commandRead) st.g e.session).g },
       { enabled := is_tracing_enabled e.toggleRead, ranSession := true,
         sessionResult :=
           some (start_tracing (get_target_command e.commandRead) st.g e.session),
         wroteDisable := true }) := by
  simp [pollIter, hb, hw]

theorem pollIter_edge_err (st : CtrlState) (e : PollEnv) (u : Unit)
    (hb : (is_tracing_enabled e.toggleRead && !st.lastStatus) = true)
    (hw : e.disableWrite = Except.error u) :
    pollIter st e = Except.error u := by
  simp [pollIter, hb, hw]

theorem pollIter_ok_of_writeOk (st : CtrlState) (e : PollEnv)
    (h : writeOk e = true) : ∃ r, pollIter st e = Except.ok r := by
  cases hb : is_tracing_enabled e.toggleRead && !st.lastStatus with
  | false => exact ⟨_, pollIter_no_edge st e hb⟩
  | true =>
    cases hw : e.disableWrite with
    | ok u => exact ⟨_, pollIter_edge_ok st e u hb hw⟩
    | error u => simp [writeOk, hw] at h

theorem pollIter_session_writes (st : CtrlState) (e : PollEnv)
    (r : CtrlState × IterLog) (hp : pollIter st e = Except.ok r) :
    (!r.2.ranSession || r.2.wroteDisable) = true := by
  cases hb : is_tracing_enabled e.toggleRead && !st.lastStatus with
  | false =>
    rw [pollIter_no_edge st e hb] at hp
    cases hp
    rfl
  | true =>
    cases hw : e.disableWrite with
    | ok u =>
      rw [pollIter_edge_ok st e u hb hw] at hp
      cases hp
      rfl
    | error u =>
      rw [pollIter_edge_err st e u hb hw] at hp
      cases hp

theorem captureLoop_cons_empty_on (env : SessionEnv) (l : String)
    (rest : List String) (i : Nat) (tok : Option String) (callIdx count : Nat)
    (hs : (pyStrip l == "") = true) (he : env.enabledAt i = true) :
    captureLoop env (l :: rest) i tok callIdx count
      = captureLoop env rest (i + 1) tok callIdx count := by
  simp [captureLoop, hs, he]

theorem captureLoop_cons_empty_off (env : SessionEnv) (l : String)
    (rest : List String) (i : Nat) (tok : Option String) (callIdx count : Nat)
    (hs : (pyStrip l == "") = true) (he : env.enabledAt i = false) :
    captureLoop env (l :: rest) i tok callIdx count
      = { appends := [], tok := tok, count := count, callIdx := callIdx,
          broke := true } := by
  simp [captureLoop, hs, he]

theorem captureLoop_cons_line_on (env : SessionEnv) (l : String)
    (rest : List String) (i : Nat) (tok : Option String) (callIdx count : Nat)
    (hs : (pyStrip l == "") = false) (he : env.enabledAt i = true) :
    captureLoop env (l :: rest) i tok callIdx count
      = { appends := appendRec l tok callIdx env ::
            (captureLoop env rest (i + 1) (tokStep tok (env.sinkResp callIdx))
              (callIdx + 1) (count + 1)).appends,
          tok := (captureLoop env rest (i + 1) (tokStep tok (env.sinkResp callIdx))
            (callIdx + 1) (count + 1)).tok,
          count := (captureLoop env rest (i + 1) (tokStep tok (env.sinkResp callIdx))
            (callIdx + 1) (count + 1)).count,
          callIdx := (captureLoop env rest (i + 1) (tokStep tok (env.sinkResp callIdx))
            (callIdx + 1) (count + 1)).callIdx,
          broke := (captureLoop env rest (i + 1) (tokStep tok (env.sinkResp callIdx))
            (callIdx + 1) (count + 1)).broke } := by
  simp [captureLoop, hs, he, appendRec, send_to_cloudwatch]

theorem captureLoop_cons_line_off (env : SessionEnv) (l : String)
    (rest : List String) (i : Nat) (tok : Option String) (callIdx count : Nat)
    (hs : (pyStrip l == "") = false) (he : env.enabledAt i = false) :
    captureLoop env (l :: rest) i tok callIdx count
      = { appends := [appendRec l tok callIdx env],
          tok := tokStep tok (env.sinkResp callIdx), count := count + 1,
          callIdx := callIdx + 1, broke := true } := by
  simp [captureLoop, hs, he, appendRec, send_to_cloudwatch]

theorem captureLoop_count (env : SessionEnv) (lines : List String) (i : Nat)
    (tok : Option String) (callIdx count : Nat)
    (h : (captureLoop env lines i tok callIdx count).broke = false) :
    (captureLoop env lines i tok callIdx count).count
      = count + (lines.filter (fun l => !(pyStrip l == ""))).length := by
  induction lines generalizing i tok callIdx count with
  | nil => simp [captureLoop]
  | cons l rest ih =>
    cases hs : (pyStrip l == "") <;> cases he : env.enabledAt i
    · rw [captureLoop_cons_line_off env l rest i tok callIdx count hs he] at h
      cases h
    · rw [captureLoop_cons_line_on env l rest i tok callIdx count hs he] at h ⊢
      have := ih (i + 1) (tokStep tok (env.sinkResp callIdx)) (callIdx + 1)
        (count + 1) h
      simp only [List.filter_cons, hs, Bool.not_false, if_true, List.length_cons]
      simp only [this]
      omega
    · rw [captureLoop_cons_empty_off env l rest i tok callIdx count hs he] at h
      cases h
    · rw [captureLoop_cons_empty_on env l rest i tok callIdx count hs he] at h ⊢
      rw [ih (i + 1) tok callIdx count h]
      simp [List.filter_cons, hs]

theorem captureLoop_msgs (env : SessionEnv) (lines : List String) (i : Nat)
    (tok : Option String) (callIdx count : Nat) :
    ∀ a ∈ (captureLoop env lines i tok callIdx count).appends,
      ∃ s, a.msg = Msg.syscall s := by
  induction lines generalizing i tok callIdx count with
  | nil =>
    intro a ha
    simp [captureLoop] at ha
  | cons l rest ih =>
    intro a ha
    cases hs : (pyStrip l == "") <;> cases he : env.enabledAt i
    · rw [captureLoop_cons_line_off env l rest i tok callIdx count hs he] at ha
      rw [List.mem_singleton] at ha
      exact ⟨pyStrip l, by rw [ha]; rfl⟩
    · rw [captureLoop_cons_line_on env l rest i tok callIdx count hs he] at ha
      rcases List.mem_cons.mp ha with h1 | h2
      · exact ⟨pyStrip l, by rw [h1]; rfl⟩
      · exact ih (i + 1) _ (callIdx + 1) (count + 1) a h2
    · rw [captureLoop_cons_empty_off env l rest i tok callIdx count hs he] at ha
      simp at ha
    · rw [captureLoop_cons_empty_on env l rest i tok callIdx count hs he] at ha
      exact ih (i + 1) tok callIdx count a ha

theorem captureLoop_chain (env : SessionEnv) (lines : List String) (i : Nat)
    (tok : Option String) (callIdx count : Nat) :
    chainFrom tok (captureLoop env lines i tok callIdx count).appends ∧
    (captureLoop env lines i tok callIdx count).tok
      = tokAfter tok (captureLoop env lines i tok callIdx count).appends := by
  induction lines generalizing i tok callIdx count with
  | nil => exact ⟨trivial, rfl⟩
  | cons l rest ih =>
    cases hs : (pyStrip l == "") <;> cases he : env.enabledAt i
    · rw [captureLoop_cons_line_off env l rest i tok callIdx count hs he]
      exact ⟨⟨rfl, trivial⟩, rfl⟩
    · rw [captureLoop_cons_line_on env l rest i tok callIdx count hs he]
      refine ⟨⟨rfl, ?_⟩, ?_⟩
      · exact (ih (i + 1) _ (callIdx + 1) (count + 1)).1
      · simpa [tokAfter, appendRec]
          using (ih (i + 1) _ (callIdx + 1) (count + 1)).2
    · rw [captureLoop_cons_empty_off env l rest i tok callIdx count hs he]
      exact ⟨trivial, rfl⟩
    · rw [captureLoop_cons_empty_on env l rest i tok callIdx count hs he]
      exact ih (i + 1) tok callIdx count

theorem captureLoop_resp_range (env : SessionEnv) (lines : List String) (i : Nat)
    (tok : Option String) (callIdx count : Nat) :
    ∀ a ∈ (captureLoop env lines i tok callIdx count).appends,
      ∃ k, a.resp = env.sinkResp k := by
  induction lines generalizing i tok callIdx count with
  | nil =>
    intro a ha
    simp [captureLoop] at ha
  | cons l rest ih =>
    intro a ha
    cases hs : (pyStrip l == "") <;> cases he : env.enabledAt i
    · rw [captureLoop_cons_line_off env l rest i tok callIdx count hs he] at ha
      rw [List.mem_singleton] at ha
      exact ⟨callIdx, by rw [ha]; rfl⟩
    · rw [captureLoop_cons_line_on env l rest i tok callIdx count hs he] at ha
      rcases List.mem_cons.mp ha with h1 | h2
      · exact ⟨callIdx, by rw [h1]; rfl⟩
      · exact ih (i + 1) _ (callIdx + 1) (count + 1) a h2
    · rw [captureLoop_cons_empty_off env l rest i tok callIdx count hs he] at ha
      simp at ha
    · rw [captureLoop_cons_empty_on env l rest i tok callIdx count hs he] at ha
      exact ih (i + 1) tok callIdx count a ha

theorem captureLoop_delivered (env : SessionEnv) (lines : List String) (i : Nat)
    (tok : Option String) (callIdx count : Nat) :
    ∀ a ∈ (captureLoop env lines i tok callIdx count).appends,
      a.delivered = respOk a.resp := by
  induction lines generalizing i tok callIdx count with
  | nil =>
    intro a ha
    simp [captureLoop] at ha
  | cons l rest ih =>
    intro a ha
    cases hs : (pyStrip l == "") <;> cases he : env.enabledAt i
    · rw [captureLoop_cons_line_off env l rest i tok callIdx count hs he] at ha
      rw [List.mem_singleton] at ha
      rw [ha]
      rfl
    · rw [captureLoop_cons_line_on env l rest i tok callIdx count hs he] at ha
      rcases List.mem_cons.mp ha with h1 | h2
      · rw [h1]
        rfl
      · exact ih (i + 1) _ (callIdx + 1) (count + 1) a h2
    · rw [captureLoop_cons_empty_off env l rest i tok callIdx count hs he] at ha
      simp at ha
    · rw [captureLoop_cons_empty_on env l rest i tok callIdx count hs he] at ha
      exact ih (i + 1) tok callIdx count a ha

theorem tokAfter_cons (tok : Option String) (a : AppendCall) (l : List AppendCall) :
    tokAfter tok (a :: l) = tokAfter (tokStep tok a.resp) l := rfl

theorem chainFrom_append (l₁ l₂ : List AppendCall) (tok : Option String)
    (h₁ : chainFrom tok l₁) (h₂ : chainFrom (tokAfter tok l₁) l₂) :
    chainFrom tok (l₁ ++ l₂) := by
  induction l₁ generalizing tok with
  | nil => simpa [tokAfter] using h₂
  | cons a t ih =>
    exact ⟨h₁.1, ih (tokStep tok a.resp) h₁.2 (by rw [← tokAfter_cons]; exact h₂)⟩

theorem start_tracing_spawn_err (cmd : String) (g : StreamState) (env : SessionEnv)
    (hs : env.spawn = Except.error ()) :
    start_tracing cmd g env =
      { g := { sequence_token := tokAfterStart g env,
               current_log_stream := some ("trace-" ++ env.streamTs) },
        appends := [startedRec cmd g env], lineCount := 0,
        terminated := false, waited := false, errored := true } := by
  simp [start_tracing, hs, startedRec, tokAfterStart, create_log_stream,
    send_to_cloudwatch]

theorem start_tracing_broke (cmd : String) (g : StreamState) (env : SessionEnv)
    (cap : CaptureStream) (hs : env.spawn = Except.ok cap)
    (hb : (sessionLoop g env cap).broke = true) :
    start_tracing cmd g env =
      { g := { sequence_token := (sessionLoop g env cap).tok,
               current_log_stream := some ("trace-" ++ env.streamTs) },
        appends := startedRec cmd g env :: (sessionLoop g env cap).appends,
        lineCount := (sessionLoop g env cap).count,
        terminated := true, waited := false, errored := true } := by
  simp [start_tracing, hs, startedRec, sessionLoop, tokAfterStart,
    create_log_stream, send_to_cloudwatch] at hb ⊢
  simp [hb]

theorem start_tracing_fault (cmd : String) (g : StreamState) (env : SessionEnv)
    (cap : CaptureStream) (hs : env.spawn = Except.ok cap)
    (hb : (sessionLoop g env cap).broke = false) (hf : cap.faultAtEnd = true) :
    start_tracing cmd g env =
      { g := { sequence_token := (sessionLoop g env cap).tok,
               current_log_stream := some ("trace-" ++ env.streamTs) },
        appends := startedRec cmd g env :: (sessionLoop g env cap).appends,
        lineCount := (sessionLoop g env cap).count,
        terminated := false, waited := false, errored := true } := by
  simp [start_tracing, hs, startedRec, sessionLoop, tokAfterStart,
    create_log_stream, send_to_cloudwatch] at hb ⊢
  simp [hb, hf]

theorem start_tracing_eof (cmd : String) (g : StreamState) (env : SessionEnv)
    (cap : CaptureStream) (hs : env.spawn = Except.ok cap)
    (hb : (sessionLoop g env cap).broke = false) (hf : cap.faultAtEnd = false) :
    start_tracing cmd g env =
      { g := { sequence_token :=
                 tokStep (sessionLoop g env cap).tok
                   (env.sinkResp (sessionLoop g env cap).callIdx),
               current_log_stream := some ("trace-" ++ env.streamTs) },
        appends := startedRec cmd g env ::
          ((sessionLoop g env cap).appends ++ [completedRec g env cap]),
        lineCount := (sessionLoop g env cap).count,
        terminated := false, waited := true, errored := false } := by
  simp [start_tracing, hs, startedRec, completedRec, sessionLoop, tokAfterStart,
    create_log_stream, send_to_cloudwatch] at hb ⊢
  simp [hb, hf]

theorem start_tracing_chain (cmd : String) (g : StreamState) (env : SessionEnv) :
    chainFrom (create_log_stream env.streamTs env.streamCreateOk g).sequence_token
      (start_tracing cmd g env).appends := by
  cases hs : env.spawn with
  | error u =>
    cases u
    rw [start_tracing_spawn_err cmd g env hs]
    exact ⟨rfl, trivial⟩
  | ok cap =>
    have hloop : chainFrom (tokAfterStart g env) (sessionLoop g env cap).appends :=
      (captureLoop_chain env cap.lines 0 (tokAfterStart g env) 1 0).1
    cases hb : (sessionLoop g env cap).broke with
    | true =>
      rw [start_tracing_broke cmd g env cap hs hb]
      exact ⟨rfl, hloop⟩
    | false =>
      cases hf : cap.faultAtEnd with
      | true =>
        rw [start_tracing_fault cmd g env cap hs hb hf]
        exact ⟨rfl, hloop⟩
      | false =>
        rw [start_tracing_eof cmd g env cap hs hb hf]
        refine ⟨rfl, chainFrom_append _ _ _ hloop ?_⟩
        have h2 : (sessionLoop g env cap).tok
            = tokAfter (tokAfterStart g env) (sessionLoop g env cap).appends :=
          (captureLoop_chain env cap.lines 0 (tokAfterStart g env) 1 0).2
        show chainFrom (tokAfter (tokAfterStart g env) (sessionLoop g env cap).appends)
          [completedRec g env cap]
        rw [← h2]
        exact ⟨rfl, trivial⟩

theorem start_tracing_resp_range (cmd : String) (g : StreamState)
    (env : SessionEnv) :
    ∀ a ∈ (start_tracing cmd g env).appends, ∃ k, a.resp = env.sinkResp k := by
  intro a ha
  cases hs : env.spawn with
  | error u =>
    cases u
    rw [start_tracing_spawn_err cmd g env hs] at ha
    rw [List.mem_singleton] at ha
    exact ⟨0, by rw [ha]; rfl⟩
  | ok cap =>
    have hloop := captureLoop_resp_range env cap.lines 0 (tokAfterStart g env) 1 0
    cases hb : (sessionLoop g env cap).broke with
    | true =>
      rw [start_tracing_broke cmd g env cap hs hb] at ha
      rcases List.mem_cons.mp ha with h1 | h2
      · exact ⟨0, by rw [h1]; rfl⟩
      · exact hloop a h2
    | false =>
      cases hf : cap.faultAtEnd with
      | true =>
        rw [start_tracing_fault cmd g env cap hs hb hf] at ha
        rcases List.mem_cons.mp ha with h1 | h2
        · exact ⟨0, by rw [h1]; rfl⟩
        · exact hloop a h2
      | false =>
        rw [start_tracing_eof cmd g env cap hs hb hf] at ha
        rcases List.mem_cons.mp ha with h1 | h2
        · exact ⟨0, by rw [h1]; rfl⟩
        · rcases List.mem_append.mp h2 with h3 | h4
          · exact hloop a h3
          · rw [List.mem_singleton] at h4
            exact ⟨(sessionLoop g env cap).callIdx, by rw [h4]; rfl⟩

theorem start_tracing_delivered (cmd : String) (g : StreamState)
    (env : SessionEnv) :
    ∀ a ∈ (start_tracing cmd g env).appends, a.delivered = respOk a.resp := by
  intro a ha
  cases hs : env.spawn with
  | error u =>
    cases u
    rw [start_tracing_spawn_err cmd g env hs] at ha
    rw [List.mem_singleton] at ha
    rw [ha]
    rfl
  | ok cap =>
    have hloop := captureLoop_delivered env cap.lines 0 (tokAfterStart g env) 1 0
    cases hb : (sessionLoop g env cap).broke with
    | true =>
      rw [start_tracing_broke cmd g env cap hs hb] at ha
      rcases List.mem_cons.mp ha with h1 | h2
      · rw [h1]; rfl
      · exact hloop a h2
    | false =>
      cases hf : cap.faultAtEnd with
      | true =>
        rw [start_tracing_fault cmd g env cap hs hb hf] at ha
        rcases List.mem_cons.mp ha with h1 | h2
        · rw [h1]; rfl
        · exact hloop a h2
      | false =>
        rw [start_tracing_eof cmd g env cap hs hb hf] at ha
        rcases List.mem_cons.mp ha with h1 | h2
        · rw [h1]; rfl
        · rcases List.mem_append.mp h2 with h3 | h4
          · exact hloop a h3
          · rw [List.mem_singleton] at h4
            rw [h4]
            rfl

theorem chainFrom_consecutive (l : List AppendCall) (tok : Option String)
    (h : chainFrom tok l) (n : Nat) (a b : AppendCall)
    (ha : l[n]? = some a) (hb : l[n + 1]? = some b) :
    ∃ t, a.supplied = attachTok t ∧ b.supplied = attachTok (tokStep t a.resp) := by
  induction l generalizing tok n with
  | nil => simp at ha
  | cons x rest ih =>
    cases n with
    | zero =>
      simp only [List.getElem?_cons_zero, Option.some.injEq] at ha
      cases rest with
      | nil => simp at hb
      | cons y t =>
        simp only [List.getElem?_cons_succ, List.getElem?_cons_zero,
          Option.some.injEq] at hb
        refine ⟨tok, ?_, ?_⟩
        · rw [← ha]; exact h.1
        · rw [← hb, ← ha]; exact h.2.1
    | succ n =>
      simp only [List.getElem?_cons_succ] at ha hb
      exact ih (tokStep tok x.resp) h.2 n ha hb

theorem splitWsGo_wf (cs : List Char) (cur : List Char)
    (hc : cur.all (fun c => !c.isWhitespace) = true) :
    (splitWsGo cs cur).all
      (fun w => !w.data.isEmpty && w.data.all (fun c => !c.isWhitespace)) = true := by
  induction cs generalizing cur with
  | nil =>
    cases cur with
    | nil => rfl
    | cons c t =>
      simp only [splitWsGo, List.isEmpty_cons, if_false, Bool.false_eq_true,
        List.all_cons, List.all_nil, Bool.and_true]
      rw [List.all_eq_true] at hc
      simp only [List.all_reverse]
      rw [Bool.and_eq_true]
      refine ⟨by simp, ?_⟩
      rw [List.all_eq_true]
      exact hc
  | cons ch cs ih =>
    cases hw : ch.isWhitespace with
    | true =>
      cases cur with
      | nil =>
        simp only [splitWsGo, hw, if_true, List.isEmpty_nil]
        exact ih [] rfl
      | cons c t =>
        simp only [splitWsGo, hw, if_true, List.isEmpty_cons, Bool.false_eq_true,
          if_false, List.all_cons]
        rw [Bool.and_eq_true]
        refine ⟨?_, ih [] rfl⟩
        rw [List.all_eq_true] at hc
        simp only [List.all_reverse]
        rw [Bool.and_eq_true]
        refine ⟨by simp, ?_⟩
        rw [List.all_eq_true]
        exact hc
    | false =>
      simp only [splitWsGo, hw, Bool.false_eq_true, if_false]
      refine ih (ch :: cur) ?_
      simp [hc, hw]

theorem start_tracing_first_append (cmd : String) (g : StreamState)
    (env : SessionEnv) :
    (start_tracing cmd g env).appends.head? = some (startedRec cmd g env) := by
  cases hs : env.spawn with
  | error u =>
    cases u
    rw [start_tracing_spawn_err cmd g env hs]
    rfl
  | ok cap =>
    cases hb : (sessionLoop g env cap).broke with
    | true =>
      rw [start_tracing_broke cmd g env cap hs hb]
      rfl
    | false =>
      cases hf : cap.faultAtEnd with
      | true =>
        rw [start_tracing_fault cmd g env cap hs hb hf]
        rfl
      | false =>
        rw [start_tracing_eof cmd g env cap hs hb hf]
        rfl

/-! ## Claim theorems -/

/-- Claim C1 (code bug): when the cancellation predicate fires while lines
remain, `stop_tracing()` does send `terminate()`, but it also clears the
global `strace_process`, so the `strace_process.wait()` that follows the
loop raises `AttributeError` on `None`; the generic `except` catches it.
The session therefore does NOT finish as EOF would: `wait()` never reaps
the subprocess and no `trace_completed` event is appended.  Evaluated at a
concrete cancelled session: `terminate()` was sent, `wait()` never ran, the
error branch ran, and the appended events are exactly `trace_started` and
the one `syscall` event — no `trace_completed`. -/
theorem C1_cancellation_skips_wait_and_completion :
    stop_tracing (some ()) = (true, none) ∧
    (start_tracing "cat f" { sequence_token := none, current_log_stream := none }
        envCancel).terminated = true ∧
    (start_tracing "cat f" { sequence_token := none, current_log_stream := none }
        envCancel).waited = false ∧
    (start_tracing "cat f" { sequence_token := none, current_log_stream := none }
        envCancel).errored = true ∧
    (start_tracing "cat f" { sequence_token := none, current_log_stream := none }
        envCancel).appends.map AppendCall.msg
      = [Msg.started "cat f", Msg.syscall "openat(3)"] ∧
    (start_tracing "cat f" { sequence_token := none, current_log_stream := none }
        envCancel).lineCount = 1 := by
  refine ⟨rfl, rfl, rfl, rfl, ?_, rfl⟩
  decide

/-- Claim C2 (refuted as stated): a configuration-store WRITE failure does
crash the poll loop.  The auto-disable `put_parameter` call in `main` is not
wrapped in a `try`, so when it raises, the exception escapes the
`while True` body and the loop dies: at a concrete iteration with the
toggle enabled and the write failing, the iteration is an uncaught error
and the run is marked crashed. -/
theorem C2_counterexample :
    pollIter ctrl0 pollWriteFail = Except.error () ∧
    (runPoll ctrl0 [pollWriteFail]).2 = true :=
  ⟨rfl, rfl⟩

/-- Claim C2, amended: every collaborator failure EXCEPT a failure of the
auto-disable configuration write is non-fatal.  Whenever the auto-disable
write succeeds on every iteration that runs a session, the poll loop never
crashes, whatever the toggle/command read results, stream-creation results,
delivery errors, spawn failures or capture faults of those iterations. -/
theorem C2_amended_loop_survives_all_but_disable_write_failure
    (st : CtrlState) (envs : List PollEnv) (h : envs.all writeOk = true) :
    (runPoll st envs).2 = false := by
  induction envs generalizing st with
  | nil => rfl
  | cons e rest ih =>
    rw [List.all_cons, Bool.and_eq_true] at h
    obtain ⟨⟨st', l⟩, hr⟩ := pollIter_ok_of_writeOk st e h.1
    simp only [runPoll, hr]
    exact ih st' h.2

/-- Witness for the amended C2: a loop whose iterations include failing
SSM reads, a session with a failing stream creation, all deliveries
failing and a capture fault, an off iteration, and a spawn-failure
session — with all disable writes succeeding — does not crash. -/
theorem C2_amended_witness :
    (runPoll ctrl0 [pollReadFail, pollAllFail, pollOff, pollSpawnErr]).2 = false :=
  C2_amended_loop_survives_all_but_disable_write_failure ctrl0
    [pollReadFail, pollAllFail, pollOff, pollSpawnErr] (by decide)

/-- Claim C3 (refuted as stated): on a spawn failure the session has
already created the log stream and already appended `trace_started` —
`create_log_stream()` and the first `send_to_cloudwatch` run before
`subprocess.Popen` is attempted.  At a concrete spawn-failing session, the
appended events are `[trace_started]` (not `[]`) and the stream name was
set. -/
theorem C3_counterexample :
    (start_tracing "ls -la" { sequence_token := none, current_log_stream := none }
        envSpawnFail).appends.map AppendCall.msg = [Msg.started "ls -la"] ∧
    (start_tracing "ls -la" { sequence_token := none, current_log_stream := none }
        envSpawnFail).g.current_log_stream = some "trace-ts2" := by
  exact ⟨by decide, by decide⟩

/-- Claim C3, amended: if the trace binary cannot be spawned the session
fails AFTER opening the log stream and appending `trace_started`: exactly
that one event is appended (no syscall events, no `trace_completed`), the
stream identity was set, no terminate/wait happens, and control returns to
the Controller through the error branch. -/
theorem C3_amended_spawn_failure_aborts_after_started (cmd : String)
    (g : StreamState) (env : SessionEnv) (h : env.spawn = Except.error ()) :
    (start_tracing cmd g env).appends.map AppendCall.msg = [Msg.started cmd] ∧
    (start_tracing cmd g env).g.current_log_stream
      = some ("trace-" ++ env.streamTs) ∧
    (start_tracing cmd g env).terminated = false ∧
    (start_tracing cmd g env).waited = false ∧
    (start_tracing cmd g env).errored = true := by
  rw [start_tracing_spawn_err cmd g env h]
  exact ⟨rfl, rfl, rfl, rfl, rfl⟩

/-- Witness for the amended C3 at a concrete spawn-failing session. -/
theorem C3_amended_witness :
    (start_tracing "ls -la" { sequence_token := none, current_log_stream := none }
        envSpawnFail).appends.map AppendCall.msg = [Msg.started "ls -la"] ∧
    (start_tracing "ls -la" { sequence_token := none, current_log_stream := none }
        envSpawnFail).g.current_log_stream
      = some ("trace-" ++ envSpawnFail.streamTs) ∧
    (start_tracing "ls -la" { sequence_token := none, current_log_stream := none }
        envSpawnFail).terminated = false ∧
    (start_tracing "ls -la" { sequence_token := none, current_log_stream := none }
        envSpawnFail).waited = false ∧
    (start_tracing "ls -la" { sequence_token := none, current_log_stream := none }
        envSpawnFail).errored = true :=
  C3_amended_spawn_failure_aborts_after_started "ls -la"
    { sequence_token := none, current_log_stream := none } envSpawnFail rfl

/-- Claim C4 (refuted as stated): the token reset sits inside the `try`
AFTER the `create_log_stream` API call, so when stream creation fails the
previous session's token survives and is attached to the new session's
first append.  Concretely: a run of three poll iterations — a session
leaving token `"T1"`, an off iteration, then a session whose stream
creation fails — has the second session attach `"T1"` (the first session's
token) on its very first append call. -/
theorem C4_counterexample :
    ((runPoll ctrl0 [pollA, pollOff, pollB]).1.filterMap IterLog.sessionResult).map
      firstSupplied = [some none, some (some "T1")] := by
  decide

/-- Claim C4, amended: the sequencing token is reset to absent, and the
first append of the session carries no token, WHEN the stream-creation API
call succeeds; the stream identity is set to the new timestamp-derived name
unconditionally. -/
theorem C4_amended_token_reset_when_stream_created (cmd : String)
    (g : StreamState) (env : SessionEnv) (h : env.streamCreateOk = true) :
    firstSupplied (start_tracing cmd g env) = some none ∧
    (create_log_stream env.streamTs env.streamCreateOk g).sequence_token = none ∧
    (create_log_stream env.streamTs env.streamCreateOk g).current_log_stream
      = some ("trace-" ++ env.streamTs) := by
  refine ⟨?_, by simp [create_log_stream, h], by simp [create_log_stream]⟩
  rw [firstSupplied, List.head?_map, start_tracing_first_append]
  simp [startedRec, create_log_stream, h, attachTok, truthy]

/-- Witness for the amended C4: even with a stale token in the globals,
a session whose stream creation succeeds attaches no token on its first
append. -/
theorem C4_amended_witness :
    firstSupplied (start_tracing "ls"
      { sequence_token := some "OLD", current_log_stream := some "trace-old" }
      sessA) = some none ∧
    (create_log_stream sessA.streamTs sessA.streamCreateOk
      { sequence_token := some "OLD",
        current_log_stream := some "trace-old" }).sequence_token = none ∧
    (create_log_stream sessA.streamTs sessA.streamCreateOk
      { sequence_token := some "OLD",
        current_log_stream := some "trace-old" }).current_log_stream
      = some ("trace-" ++ sessA.streamTs) :=
  C4_amended_token_reset_when_stream_created "ls"
    { sequence_token := some "OLD", current_log_stream := some "trace-old" }
    sessA rfl

/-- Claim C5 (confirmed): in every completed poll iteration that ran a
session — whether it reached the completion path or any failure path — the
auto-disable write was performed within that same iteration, hence before
any later iteration could start another session; and an iteration whose
write fails terminates the whole loop, so no subsequent session starts
without a preceding successful disable write. -/
theorem C5_disable_written_before_any_subsequent_session (st : CtrlState)
    (envs : List PollEnv) :
    ((runPoll st envs).1.all fun l => !l.ranSession || l.wroteDisable) = true := by
  induction envs generalizing st with
  | nil => rfl
  | cons e rest ih =>
    cases hp : pollIter st e with
    | error u => simp [runPoll, hp]
    | ok r =>
      obtain ⟨st', l⟩ := r
      simp only [runPoll, hp, List.all_cons]
      rw [Bool.and_eq_true]
      exact ⟨pollIter_session_writes st e (st', l) hp, ih st'⟩

/-- Claim C6 (confirmed): within a session, for any two consecutive append
calls n and n+1 (assuming the sink never returns an empty-string token):
if call n succeeded, the token supplied on call n+1 is exactly the
next-token the sink returned for call n; if call n raised a DeliveryError,
the token supplied on call n+1 equals the one supplied on call n (the token
is left unchanged), and the affected event was not delivered — while call
n+1 itself still happened, i.e. the session went on. -/
theorem C6_sequence_token_chain (cmd : String) (g : StreamState)
    (env : SessionEnv) (hwf : ∀ k, respWellFormed (env.sinkResp k) = true)
    (n : Nat) (a b : AppendCall)
    (ha : (start_tracing cmd g env).appends[n]? = some a)
    (hb : (start_tracing cmd g env).appends[n + 1]? = some b) :
    (∀ next, a.resp = Except.ok next → b.supplied = next) ∧
    (a.resp = Except.error () → b.supplied = a.supplied ∧ a.delivered = false) := by
  obtain ⟨t, hat, hbt⟩ :=
    chainFrom_consecutive _ _ (start_tracing_chain cmd g env) n a b ha hb
  constructor
  · intro next hr
    obtain ⟨k, hk⟩ :=
      start_tracing_resp_range cmd g env a (List.getElem?_mem ha)
    have h2 : env.sinkResp k = Except.ok next := hk.symm.trans hr
    have hwfk := hwf k
    rw [h2] at hwfk
    rw [hbt, hr]
    exact attachTok_of_wf next hwfk
  · intro hr
    refine ⟨?_, ?_⟩
    · rw [hbt, hat, hr]
      rfl
    · have hd := start_tracing_delivered cmd g env a (List.getElem?_mem ha)
      rw [hd, hr]
      rfl

/-- Witness for C6 at a session with a DeliveryError on its second append:
the chain holds both across the successful first call and across the failed
second call. -/
theorem C6_sequence_token_chain_witness :
    (((∀ next, c6a.resp = Except.ok next → c6b.supplied = next) ∧
      (c6a.resp = Except.error () → c6b.supplied = c6a.supplied ∧
        c6a.delivered = false)) ∧
     ((∀ next, c6b.resp = Except.ok next → c6c.supplied = next) ∧
      (c6b.resp = Except.error () → c6c.supplied = c6b.supplied ∧
        c6b.delivered = false))) :=
  ⟨C6_sequence_token_chain "x"
      { sequence_token := none, current_log_stream := none } envC6
      (fun k => by rcases k with _ | _ | _ | k <;> rfl) 0 c6a c6b rfl rfl,
   C6_sequence_token_chain "x"
      { sequence_token := none, current_log_stream := none } envC6
      (fun k => by rcases k with _ | _ | _ | k <;> rfl) 1 c6b c6c rfl rfl⟩

/-- Claim C7 (confirmed): whenever a session appends a `trace_completed`
event, the count it carries equals the number of lines of the captured
stream whose stripped form is non-empty — with no assumption whatsoever on
the sink's responses, i.e. independent of how many events were actually
delivered — and it also equals the session's final `line_count`. -/
theorem C7_completed_count_is_nonempty_lines (cmd : String) (g : StreamState)
    (env : SessionEnv) (cap : CaptureStream) (n : Nat)
    (hs : env.spawn = Except.ok cap)
    (hm : Msg.completed n ∈ (start_tracing cmd g env).appends.map AppendCall.msg) :
    n = (cap.lines.filter (fun l => !(pyStrip l == ""))).length ∧
    n = (start_tracing cmd g env).lineCount := by
  have hmsgs := captureLoop_msgs env cap.lines 0 (tokAfterStart g env) 1 0
  cases hb : (sessionLoop g env cap).broke with
  | true =>
    exfalso
    rw [start_tracing_broke cmd g env cap hs hb] at hm
    simp only [List.map_cons, List.mem_cons, startedRec] at hm
    rcases hm with h1 | h2
    · simp at h1
    · obtain ⟨a, hmem, hamsg⟩ := List.mem_map.mp h2
      obtain ⟨s, hsys⟩ := hmsgs a hmem
      rw [hsys] at hamsg
      simp at hamsg
  | false =>
    cases hf : cap.faultAtEnd with
    | true =>
      exfalso
      rw [start_tracing_fault cmd g env cap hs hb hf] at hm
      simp only [List.map_cons, List.mem_cons, startedRec] at hm
      rcases hm with h1 | h2
      · simp at h1
      · obtain ⟨a, hmem, hamsg⟩ := List.mem_map.mp h2
        obtain ⟨s, hsys⟩ := hmsgs a hmem
        rw [hsys] at hamsg
        simp at hamsg
    | false =>
      have hcount : (sessionLoop g env cap).count
          = 0 + (cap.lines.filter (fun l => !(pyStrip l == ""))).length :=
        captureLoop_count env cap.lines 0 (tokAfterStart g env) 1 0 hb
      rw [start_tracing_eof cmd g env cap hs hb hf] at hm ⊢
      simp only [List.map_cons, List.mem_cons, List.map_append, List.mem_append,
        startedRec, completedRec, List.map_cons, List.map_nil,
        List.mem_singleton] at hm
      rcases hm with h1 | h2 | h3
      · simp at h1
      · obtain ⟨a, hmem, hamsg⟩ := List.mem_map.mp h2
        obtain ⟨s, hsys⟩ := hmsgs a hmem
        rw [hsys] at hamsg
        simp at hamsg
      · have hn : n = (sessionLoop g env cap).count := by
          rcases h3 with h4 | h4
          · injection h4
          · simp at h4
        refine ⟨?_, ?_⟩
        · rw [hn, hcount]
          omega
        · rw [hn]

/-- Witness for C7: a session with lines "la", " ", "lb" (one
whitespace-only) and a DeliveryError on the first syscall append still
reports 2 in its `trace_completed` event, matching its `line_count`. -/
theorem C7_completed_count_witness :
    2 = (({ lines := ["la", " ", "lb"], faultAtEnd := false } :
          CaptureStream).lines.filter (fun l => !(pyStrip l == ""))).length ∧
    2 = (start_tracing "c" { sequence_token := none, current_log_stream := none }
          envC7).lineCount :=
  C7_completed_count_is_nonempty_lines "c"
    { sequence_token := none, current_log_stream := none } envC7
    { lines := ["la", " ", "lb"], faultAtEnd := false } 2 rfl (by decide)

/-- Claim C8 (refuted as stated): the session does NOT use
shell-word-splitting semantics.  The source splits the command with
Python's plain `str.split()`, which splits on whitespace and does not
interpret quotes: for the command string `echo "a b"`, the argv the code
builds differs from the one shell-word splitting would dictate (the quoted
argument is torn apart). -/
theorem C8_counterexample :
    straceArgv "echo \"a b\"" ≠ straceFlags ++ shellWordSplit "echo \"a b\"" := by
  decide

/-- Claim C8, amended: the command is split on runs of whitespace with no
quote handling (every resulting word is non-empty and contains no
whitespace character), and the tracer binary is invoked as the fixed
diagnostic flags followed by that word list; on `echo "a b"` the quoted
argument becomes the two words `"a` and `b"`. -/
theorem C8_amended_whitespace_split (command : String) :
    straceArgv command = straceFlags ++ pySplit command ∧
    (pySplit command).all
      (fun w => !w.data.isEmpty && w.data.all (fun c => !c.isWhitespace)) = true ∧
    pySplit "echo \"a b\"" = ["echo", "\"a", "b\""] :=
  ⟨rfl, splitWsGo_wf command.data [] rfl, by decide⟩

/-- Claim C9 (confirmed): a failed (or absent — the boto client raises for
a missing parameter, which `get_ssm_parameter` turns into `None`) read of
the enable flag is treated as disabled and the iteration starts no session;
a failed or absent read of the target command falls back to the fixed
default `ls -la`; and the poll iteration completes normally — the read
failures are never propagated. -/
theorem C9_read_failures_fail_safe (st : CtrlState) (env : PollEnv)
    (ht : env.toggleRead = Except.error ())
    (hc : env.commandRead = Except.error ()) :
    is_tracing_enabled env.toggleRead = false ∧
    get_target_command env.commandRead = "ls -la" ∧
    pollIter st env = Except.ok
      ({ lastStatus := false, g := st.g },
       { enabled := false, ranSession := false, sessionResult := none,
         wroteDisable := false }) := by
  rw [ht, hc]
  refine ⟨rfl, rfl, ?_⟩
  have hb : (is_tracing_enabled env.toggleRead && !st.lastStatus) = false := by
    rw [ht]
    rfl
  rw [pollIter_no_edge st env hb, ht]
  rfl

/-- Witness for C9 at a concrete iteration whose two reads both fail. -/
theorem C9_read_failures_witness :
    is_tracing_enabled pollReadFail.toggleRead = false ∧
    get_target_command pollReadFail.commandRead = "ls -la" ∧
    pollIter ctrl0 pollReadFail = Except.ok
      ({ lastStatus := false, g := ctrl0.g },
       { enabled := false, ranSession := false, sessionResult := none,
         wroteDisable := false }) :=
  C9_read_failures_fail_safe ctrl0 pollReadFail rfl rfl

/-- Claim C10 (confirmed): the flag is enabled exactly when the read
succeeded and the stored string, lowercased, equals `"true"` — so `"True"`
and `"TRUE"` enable tracing, while `"1"`, `"yes"`, whitespace-padded
variants, the empty string, and a failed/absent read are all disabled. -/
theorem C10_enabled_iff_lowercase_true (resp : Except Unit String) :
    is_tracing_enabled resp = true ↔
      ∃ v, resp = Except.ok v ∧ pyLower v = "true" := by
  constructor
  · intro h
    match resp with
    | .error u => simp [is_tracing_enabled, get_ssm_parameter] at h
    | .ok v =>
      refine ⟨v, rfl, ?_⟩
      simp only [is_tracing_enabled, get_ssm_parameter, Bool.and_eq_true,
        beq_iff_eq] at h
      exact h.2
  · rintro ⟨v, rfl, hv⟩
    have hne : (v == "") = false := by
      rw [beq_eq_false_iff_ne]
      intro h0
      rw [h0] at hv
      exact absurd hv (by decide)
    simp [is_tracing_enabled, get_ssm_parameter, hne, hv]

end Tracer
